import Mathlib

/-!
Verification of the game-loop and collision engine in
src/TMNT_Game_Theme/js/engine.js.

The engine file is embedded shallowly: the mutable session (app.ACTORS, the
loop's lastTime, the stored requestAnimationFrameID and the browser's
animation-frame queue) becomes an explicit state record, and each engine
function becomes a state transformer.  The per-actor callbacks that live in
app.js (enemy.update, enemy.newWave, gem.update, heart.update) are not part
of the engine file; following the spec they are abstracted as a `Hooks`
parameter.  Date.now() is modelled as a stream of readings.  Since
checkCollisions re-entrantly calls init(), which calls main(), which calls
checkCollisions again, the knot is unrolled on an explicit recursion-depth
budget (`fuel`); `none` means the budget ran out before the call chain
returned, and every lemma about a run exhibits a completed (`some`) run.
-/

namespace Arcade

attribute [local semireducible] Rat.add Rat.sub Rat.mul Rat.inv Rat.ofScientific

/-- The player as the engine sees it: engine.js reads and writes x, y, life
and score on app.ACTORS.player. -/
structure Player where
  x : ℚ
  y : ℚ
  life : ℤ
  score : ℤ

/-- An enemy: position plus its private app.js state (speed, wave data),
which the engine never inspects. -/
structure Enemy (ε : Type) where
  x : ℚ
  y : ℚ
  ext : ε

/-- The gem: position plus private app.js state. -/
structure Gem (γ : Type) where
  x : ℚ
  y : ℚ
  ext : γ

/-- The heart: position, the notVisible flag written by the engine at
engine.js line 126, plus private app.js state. -/
structure Heart (η : Type) where
  x : ℚ
  y : ℚ
  notVisible : Bool
  ext : η

/-- The browser's animation-frame queue: the handles of pending callbacks and
the next handle to hand out.  cancelAnimationFrame of a handle that is not
pending is a no-op; a callback's handle leaves the queue when it fires. -/
structure Browser where
  pending : List ℕ
  nextId : ℕ

/-- Modelled from the spec: the actor methods engine.js invokes but whose
bodies live in app.js, which is not under src.  Per the spec, enemy.update
advances an enemy by a time delta, enemy.newWave re-randomizes its respawn,
gem.update relocates the gem after collection, and heart.update takes no
time argument. -/
structure Hooks (ε γ η : Type) where
  enemyUpdate : ℚ → Enemy ε → Enemy ε
  newWave : Enemy ε → Enemy ε
  gemUpdate : Gem γ → Gem γ
  heartUpdate : Heart η → Heart η

/-- Successive Date.now() readings, one per call. -/
def Clock : Type := ℕ → ℚ

/-- The engine's session state: app.ACTORS, the loop's lastTime, how many
Date.now() calls have happened, the stored requestAnimationFrameID (none
before the first schedule; it keeps its stale value after a cancel), and the
browser queue. -/
structure EngineState (ε γ η : Type) where
  player : Player
  allEnemies : List (Enemy ε)
  gem : Gem γ
  heart : Heart η
  lastTime : ℚ
  clockIdx : ℕ
  rafId : Option ℕ
  browser : Browser

/-- engine.js lines 19-21: function between(x, min, max)
returns x >= min && x <= max. -/
def between (x mn mx : ℚ) : Bool :=
  decide (x ≥ mn) && decide (x ≤ mx)

/-- The tolerance-box collision test exactly as inlined at engine.js lines
114, 119 and 124: between(A.x, B.x - 60, B.x + 60) &&
between(A.y, B.y - 10, B.y + 10). -/
def toleranceHit (px py bx bya : ℚ) : Bool :=
  between px (bx - 60) (bx + 60) && between py (bya - 10) (bya + 10)

/-- app.GAME_CONFIG.CANVAS_WIDTH (engine.js line 29). -/
def CANVAS_WIDTH : ℚ := 505

/-- win.cancelAnimationFrame on a stored handle: removes that handle from the
queue if pending, otherwise does nothing; the initial undefined handle
cancels nothing. -/
def cancelAF (b : Browser) (h : Option ℕ) : Browser :=
  match h with
  | none => b
  | some i => { b with pending := b.pending.erase i }

variable {ε γ η : Type}

/-- engine.js updateEntities (lines 138-146): every enemy's update(dt), then
heart.update() with no time argument; the player and gem are not advanced. -/
def updateEntities (H : Hooks ε γ η) (dt : ℚ) (s : EngineState ε γ η) :
    EngineState ε γ η :=
  { s with allEnemies := s.allEnemies.map (H.enemyUpdate dt),
           heart := H.heartUpdate s.heart }

/-- engine.js reset (lines 216-230): player respawns at (200, 350), the heart
is hidden at x = -100, every enemy gets newWave(), and the stored frame
handle is cancelled; the rescheduling line 229 is commented out, so nothing
is scheduled and the stored handle keeps its stale value. -/
def reset (H : Hooks ε γ η) (s : EngineState ε γ η) : EngineState ε γ η :=
  { s with player := { s.player with x := 200, y := 350 },
           heart := { s.heart with x := -100 },
           allEnemies := s.allEnemies.map H.newWave,
           browser := cancelAF s.browser s.rafId }

/-- The forEach over allEnemies inside checkCollisions (engine.js lines
113-118), iterating the indices 0..len-1 of the live array: on a hit,
player.life is decremented and init() runs re-entrantly (doInit), and
iteration continues on the mutated state. -/
def checkEnemiesFrom (doInit : EngineState ε γ η → Option (EngineState ε γ η)) :
    ℕ → ℕ → EngineState ε γ η → Option (EngineState ε γ η)
  | 0, _, s => some s
  | rem + 1, i, s =>
    match s.allEnemies.get? i with
    | none => some s
    | some e =>
      if toleranceHit s.player.x s.player.y e.x e.y = true then
        (doInit { s with player := { s.player with life := s.player.life - 1 } }).bind
          (checkEnemiesFrom doInit rem (i + 1))
      else checkEnemiesFrom doInit rem (i + 1) s

/-- engine.js checkCollisions (lines 107-129) with the re-entrant init() call
abstracted as doInit: the enemy loop, then the gem branch (score++,
gem.update(), init()), then the heart branch (life++, heart.notVisible =
true, reset()). -/
def checkCollisionsWith (H : Hooks ε γ η)
    (doInit : EngineState ε γ η → Option (EngineState ε γ η))
    (s : EngineState ε γ η) : Option (EngineState ε γ η) :=
  (checkEnemiesFrom doInit s.allEnemies.length 0 s).bind (fun s1 =>
    (if toleranceHit s1.player.x s1.player.y s1.gem.x s1.gem.y = true then
        doInit { s1 with player := { s1.player with score := s1.player.score + 1 },
                         gem := H.gemUpdate s1.gem }
      else some s1).bind (fun s2 =>
      if toleranceHit s2.player.x s2.player.y s2.heart.x s2.heart.y = true then
        some (reset H { s2 with player := { s2.player with life := s2.player.life + 1 },
                                heart := { s2.heart with notVisible := true } })
      else some s2))

/-- deltaTime as computed at engine.js line 64: (now - lastTime) / 1000. -/
def mainDt (now lastTime : ℚ) : ℚ := (now - lastTime) / 1000

/-- engine.js main (lines 56-81) with checkCollisions abstracted as doCC:
read now = Date.now(), run update(dt), which is updateEntities(dt) followed
by checkCollisions(), render (no state effect), store lastTime = now, then
requestAnimationFrame(main) and store the new handle. -/
def mainWith (c : Clock)
    (doCC : EngineState ε γ η → Option (EngineState ε γ η))
    (H : Hooks ε γ η) (s : EngineState ε γ η) : Option (EngineState ε γ η) :=
  (doCC (updateEntities H (mainDt (c s.clockIdx) s.lastTime)
      { s with clockIdx := s.clockIdx + 1 })).map (fun s1 =>
    { s1 with lastTime := c s.clockIdx,
              rafId := some s1.browser.nextId,
              browser := { pending := s1.browser.pending ++ [s1.browser.nextId],
                           nextId := s1.browser.nextId + 1 } })

/-- engine.js init (lines 87-91) with the inner checkCollisions abstracted:
reset(), lastTime = Date.now(), then main(). -/
def initWith (c : Clock)
    (doCC : EngineState ε γ η → Option (EngineState ε γ η))
    (H : Hooks ε γ η) (s : EngineState ε γ η) : Option (EngineState ε γ η) :=
  mainWith c doCC H
    { reset H s with lastTime := c s.clockIdx, clockIdx := s.clockIdx + 1 }

/-- The re-entrant init/main/update/checkCollisions knot, tied on an explicit
recursion-depth budget: each nested re-entrant init() consumes one unit. -/
def init (H : Hooks ε γ η) (c : Clock) :
    ℕ → EngineState ε γ η → Option (EngineState ε γ η)
  | 0, _ => none
  | fuel + 1, s => initWith c (checkCollisionsWith H (init H c fuel)) H s

/-- engine.js checkCollisions with its re-entrant init() given a depth
budget. -/
def checkCollisions (H : Hooks ε γ η) (c : Clock) (fuel : ℕ)
    (s : EngineState ε γ η) : Option (EngineState ε γ η) :=
  checkCollisionsWith H (init H c fuel) s

/-- engine.js main with its transitive init() calls given a depth budget. -/
def main (H : Hooks ε γ η) (c : Clock) (fuel : ℕ)
    (s : EngineState ε γ η) : Option (EngineState ε γ η) :=
  mainWith c (checkCollisions H c fuel) H s

/-- engine.js update (lines 102-105): updateEntities(dt), then
checkCollisions(). -/
def update (H : Hooks ε γ η) (c : Clock) (fuel : ℕ) (dt : ℚ)
    (s : EngineState ε γ η) : Option (EngineState ε γ η) :=
  checkCollisions H c fuel (updateEntities H dt s)

/-- Modelled from the spec: the per-actor render methods live in app.js,
which is not under src; per the spec each draws the actor's sprite at its
current (x, y).  renderEntities (engine.js lines 194-210) issues draws in
source order: gem.render(), heart.render(), each enemy's render(),
player.renderText(), player.render(). -/
def renderEntities (s : EngineState ε γ η) : List (ℚ × ℚ) :=
  [(s.gem.x, s.gem.y), (s.heart.x, s.heart.y)] ++
    s.allEnemies.map (fun e => (e.x, e.y)) ++
    [(s.player.x, s.player.y), (s.player.x, s.player.y)]

/-- A draw x-position lands on the 505-wide canvas. -/
def onCanvasX (x : ℚ) : Prop := 0 ≤ x ∧ x < CANVAS_WIDTH

/-- A benign app.js behavior instance: newWave respawns an enemy far
off-grid at (-1000, 0) and the update callbacks leave actors in place; one
resolution of the spec's randomized re-wave. -/
def benignHooks : Hooks Unit Unit Unit :=
  { enemyUpdate := fun _ e => e,
    newWave := fun e => { x := -1000, y := 0, ext := e.ext },
    gemUpdate := fun g => g,
    heartUpdate := fun h => h }

/-- A behavior instance whose gem.update visibly relocates the gem, used to
observe whether the engine ever invokes it during entity advancement. -/
def bumpHooks : Hooks Unit Unit Unit :=
  { enemyUpdate := fun _ e => e,
    newWave := fun e => e,
    gemUpdate := fun g => { g with x := g.x + 1 },
    heartUpdate := fun h => h }

/-- An adversarial but spec-consistent behavior instance: a freshly waved
enemy (marker 0) happens to respawn right on the player spawn tolerance box,
while a re-waved one (marker 1) respawns far away. -/
def advHooks : Hooks ℕ Unit Unit :=
  { enemyUpdate := fun _ e => e,
    newWave := fun e =>
      if e.ext = 0 then { x := 200, y := 350, ext := 1 }
      else { x := -1000, y := 0, ext := e.ext },
    gemUpdate := fun g => g,
    heartUpdate := fun h => h }

/-- A behavior instance for the load-time trace: a just-waved enemy's first
update(dt) steps it onto the player spawn box, after which it stays put;
newWave parks enemies at (0, 0) keeping their marker. -/
def loadHooks : Hooks ℕ Unit Unit :=
  { enemyUpdate := fun _ e =>
      if e.ext = 0 then { x := 200, y := 350, ext := 1 } else e,
    newWave := fun e => { x := 0, y := 0, ext := e.ext },
    gemUpdate := fun g => g,
    heartUpdate := fun h => h }

/-- A concrete Date.now() stream. -/
def clk : Clock := fun k => (k : ℚ)

/-- A session in which the first enemy's tolerance box contains the player
and everything else is far away. -/
def enemyHitState : EngineState Unit Unit Unit :=
  { player := { x := 100, y := 100, life := 5, score := 0 },
    allEnemies := [{ x := 100, y := 100, ext := () },
                   { x := 2000, y := 0, ext := () },
                   { x := 2000, y := 0, ext := () }],
    gem := { x := 1000, y := 1000, ext := () },
    heart := { x := 1000, y := 800, notVisible := false, ext := () },
    lastTime := 0, clockIdx := 0, rafId := none,
    browser := { pending := [], nextId := 1 } }

/-- The same session with marked enemies, for the adversarial re-wave run. -/
def doubleHitState : EngineState ℕ Unit Unit :=
  { player := { x := 100, y := 100, life := 5, score := 0 },
    allEnemies := [{ x := 100, y := 100, ext := 0 },
                   { x := 2000, y := 0, ext := 0 },
                   { x := 2000, y := 0, ext := 0 }],
    gem := { x := 1000, y := 1000, ext := () },
    heart := { x := 1000, y := 800, notVisible := false, ext := () },
    lastTime := 0, clockIdx := 0, rafId := none,
    browser := { pending := [], nextId := 1 } }

/-- The session as built at load time (engine.js lines 34-39), before
Resources.onReady(init) fires: three enemies, nothing scheduled yet. -/
def loadState : EngineState ℕ Unit Unit :=
  { player := { x := 200, y := 300, life := 5, score := 0 },
    allEnemies := [{ x := 70, y := 70, ext := 0 },
                   { x := 140, y := 140, ext := 0 },
                   { x := 210, y := 210, ext := 0 }],
    gem := { x := 1000, y := 1000, ext := () },
    heart := { x := 1000, y := 800, notVisible := false, ext := () },
    lastTime := 0, clockIdx := 0, rafId := none,
    browser := { pending := [], nextId := 1 } }

/-- A session in which both the first enemy's and the gem's tolerance boxes
contain the player. -/
def gemMaskState : EngineState Unit Unit Unit :=
  { player := { x := 100, y := 100, life := 5, score := 0 },
    allEnemies := [{ x := 100, y := 100, ext := () },
                   { x := 2000, y := 0, ext := () },
                   { x := 2000, y := 0, ext := () }],
    gem := { x := 100, y := 100, ext := () },
    heart := { x := 1000, y := 800, notVisible := false, ext := () },
    lastTime := 0, clockIdx := 0, rafId := none,
    browser := { pending := [], nextId := 1 } }

/-- A session in which only the gem's tolerance box contains the player. -/
def gemHitState : EngineState Unit Unit Unit :=
  { player := { x := 100, y := 100, life := 5, score := 0 },
    allEnemies := [{ x := 2000, y := 0, ext := () },
                   { x := 2000, y := 0, ext := () },
                   { x := 2000, y := 0, ext := () }],
    gem := { x := 100, y := 100, ext := () },
    heart := { x := 1000, y := 800, notVisible := false, ext := () },
    lastTime := 0, clockIdx := 0, rafId := none,
    browser := { pending := [], nextId := 1 } }

/-- A session in which both the first enemy's and the heart's tolerance
boxes contain the player. -/
def heartMaskState : EngineState Unit Unit Unit :=
  { player := { x := 100, y := 100, life := 5, score := 0 },
    allEnemies := [{ x := 100, y := 100, ext := () },
                   { x := 2000, y := 0, ext := () },
                   { x := 2000, y := 0, ext := () }],
    gem := { x := 1000, y := 1000, ext := () },
    heart := { x := 100, y := 100, notVisible := false, ext := () },
    lastTime := 0, clockIdx := 0, rafId := none,
    browser := { pending := [], nextId := 1 } }

/-- A session in which only the heart's tolerance box contains the player. -/
def heartHitState : EngineState Unit Unit Unit :=
  { player := { x := 100, y := 100, life := 5, score := 0 },
    allEnemies := [{ x := 2000, y := 0, ext := () },
                   { x := 2000, y := 0, ext := () },
                   { x := 2000, y := 0, ext := () }],
    gem := { x := 1000, y := 1000, ext := () },
    heart := { x := 100, y := 100, notVisible := false, ext := () },
    lastTime := 0, clockIdx := 0, rafId := none,
    browser := { pending := [], nextId := 1 } }

/-- A running session with exactly one pending frame callback, whose handle
is the stored one. -/
def runningState : EngineState Unit Unit Unit :=
  { player := { x := 0, y := 0, life := 3, score := 2 },
    allEnemies := [{ x := 2000, y := 0, ext := () },
                   { x := 2000, y := 0, ext := () },
                   { x := 2000, y := 0, ext := () }],
    gem := { x := 1000, y := 1000, ext := () },
    heart := { x := 1000, y := 800, notVisible := false, ext := () },
    lastTime := 0, clockIdx := 0, rafId := some 7,
    browser := { pending := [7], nextId := 8 } }

/-- A quiet session used to observe one tick: after advancement nothing
collides. -/
def tickState : EngineState Unit Unit Unit :=
  { player := { x := 300, y := 400, life := 5, score := 0 },
    allEnemies := [{ x := 2000, y := 0, ext := () },
                   { x := 2000, y := 0, ext := () },
                   { x := 2000, y := 0, ext := () }],
    gem := { x := 1000, y := 1000, ext := () },
    heart := { x := 1000, y := 800, notVisible := false, ext := () },
    lastTime := 0, clockIdx := 0, rafId := none,
    browser := { pending := [], nextId := 1 } }

/-- A session whose heart sits at its hidden position x = -100. -/
def hiddenHeartState : EngineState Unit Unit Unit :=
  { player := { x := 200, y := 300, life := 5, score := 0 },
    allEnemies := [{ x := 2000, y := 0, ext := () },
                   { x := 2000, y := 0, ext := () },
                   { x := 2000, y := 0, ext := () }],
    gem := { x := 1000, y := 1000, ext := () },
    heart := { x := -100, y := 300, notVisible := true, ext := () },
    lastTime := 0, clockIdx := 0, rafId := none,
    browser := { pending := [], nextId := 1 } }

theorem between_true_iff (x mn mx : ℚ) :
    between x mn mx = true ↔ mn ≤ x ∧ x ≤ mx := by
  simp [between, ge_iff_le]

theorem toleranceHit_true_iff (px py bx bya : ℚ) :
    toleranceHit px py bx bya = true ↔
      (bx - 60 ≤ px ∧ px ≤ bx + 60) ∧ (bya - 10 ≤ py ∧ py ≤ bya + 10) := by
  simp [toleranceHit, Bool.and_eq_true, between_true_iff]

theorem toleranceHit_eq_false_iff (px py bx bya : ℚ) :
    toleranceHit px py bx bya = false ↔
      ¬((bx - 60 ≤ px ∧ px ≤ bx + 60) ∧ (bya - 10 ≤ py ∧ py ≤ bya + 10)) := by
  rw [← toleranceHit_true_iff]
  cases h : toleranceHit px py bx bya <;> simp [h]

theorem hiddenX_no_hit (px py hy : ℚ) (h0 : 0 ≤ px) :
    toleranceHit px py (-100) hy = false := by
  rw [toleranceHit_eq_false_iff]
  rintro ⟨⟨-, h2⟩, -⟩
  norm_num at h2
  linarith

theorem cancelAF_nextId (b : Browser) (h : Option ℕ) :
    (cancelAF b h).nextId = b.nextId := by
  cases h <;> rfl

theorem checkEnemiesFrom_no_fire
    (doInit : EngineState ε γ η → Option (EngineState ε γ η)) (rem : ℕ) :
    ∀ (i : ℕ) (s : EngineState ε γ η),
      (∀ e ∈ s.allEnemies, toleranceHit s.player.x s.player.y e.x e.y = false) →
      checkEnemiesFrom doInit rem i s = some s := by
  induction rem with
  | zero => intro i s _; rfl
  | succ rem ih =>
    intro i s h
    unfold checkEnemiesFrom
    split
    next => rfl
    next e hg =>
      have hf : toleranceHit s.player.x s.player.y e.x e.y = false :=
        h e (List.get?_mem hg)
      rw [if_neg (by simp [hf])]
      exact ih (i + 1) s h

theorem checkEnemiesFrom_fire
    (doInit : EngineState ε γ η → Option (EngineState ε γ η))
    (s Sf : EngineState ε γ η)
    (hinit : doInit { s with player := { s.player with life := s.player.life - 1 } }
      = some Sf)
    (hq : ∀ e ∈ Sf.allEnemies, toleranceHit Sf.player.x Sf.player.y e.x e.y = false)
    (rem : ℕ) :
    ∀ (i : ℕ),
      (∃ k, i ≤ k ∧ k < i + rem ∧ ∃ e, s.allEnemies.get? k = some e ∧
        toleranceHit s.player.x s.player.y e.x e.y = true) →
      checkEnemiesFrom doInit rem i s = some Sf := by
  induction rem with
  | zero =>
    rintro i ⟨k, hik, hk, -⟩
    omega
  | succ rem ih =>
    rintro i ⟨k, hik, hkrem, e, hke, hhit⟩
    unfold checkEnemiesFrom
    split
    next hg =>
      exfalso
      have hlen := List.get?_eq_none.mp hg
      have hklen : k < s.allEnemies.length := by
        rcases List.get?_eq_some.mp hke with ⟨hlt, -⟩
        exact hlt
      omega
    next e0 hg =>
      by_cases hf : toleranceHit s.player.x s.player.y e0.x e0.y = true
      · rw [if_pos hf, hinit]
        exact checkEnemiesFrom_no_fire doInit rem (i + 1) Sf hq
      · have hik' : i ≠ k := by
          intro hik0
          subst hik0
          rw [hg] at hke
          cases hke
          exact hf hhit
        rw [if_neg hf]
        exact ih (i + 1) ⟨k, by omega, by omega, e, hke, hhit⟩

theorem checkCollisionsWith_no_fire (H : Hooks ε γ η)
    (doInit : EngineState ε γ η → Option (EngineState ε γ η))
    (s : EngineState ε γ η)
    (h1 : ∀ e ∈ s.allEnemies, toleranceHit s.player.x s.player.y e.x e.y = false)
    (h2 : toleranceHit s.player.x s.player.y s.gem.x s.gem.y = false)
    (h3 : toleranceHit s.player.x s.player.y s.heart.x s.heart.y = false) :
    checkCollisionsWith H doInit s = some s := by
  unfold checkCollisionsWith
  rw [checkEnemiesFrom_no_fire doInit _ 0 s h1]
  simp [h2, h3]

theorem init_quiet (H : Hooks ε γ η) (c : Clock) (fuel : ℕ)
    (s : EngineState ε γ η)
    (hqe : ∀ (dt : ℚ) (e : Enemy ε),
      toleranceHit 200 350 (H.enemyUpdate dt (H.newWave e)).x
        (H.enemyUpdate dt (H.newWave e)).y = false)
    (hqg : toleranceHit 200 350 s.gem.x s.gem.y = false)
    (hqh : ∀ h : Heart η, h.x = -100 → (H.heartUpdate h).x = -100) :
    init H c (fuel + 1) s = some
      { player := { s.player with x := 200, y := 350 },
        allEnemies := (s.allEnemies.map H.newWave).map
          (H.enemyUpdate (mainDt (c (s.clockIdx + 1)) (c s.clockIdx))),
        gem := s.gem,
        heart := H.heartUpdate { s.heart with x := -100 },
        lastTime := c (s.clockIdx + 1),
        clockIdx := s.clockIdx + 2,
        rafId := some s.browser.nextId,
        browser := { pending := (cancelAF s.browser s.rafId).pending
                        ++ [s.browser.nextId],
                     nextId := s.browser.nextId + 1 } } := by
  show initWith c (checkCollisionsWith H (init H c fuel)) H s = _
  unfold initWith mainWith
  rw [checkCollisionsWith_no_fire H (init H c fuel) _ ?h1 ?h2 ?h3]
  · simp only [Option.map_some']
    simp only [updateEntities, reset, cancelAF_nextId]
  case h1 =>
    intro e he
    have he' := List.mem_map.mp he
    obtain ⟨e1, he1, rfl⟩ := he'
    obtain ⟨e0, he0, rfl⟩ := List.mem_map.mp he1
    exact hqe _ e0
  case h2 => exact hqg
  case h3 =>
    show toleranceHit 200 350 (H.heartUpdate { s.heart with x := -100 }).x
      (H.heartUpdate { s.heart with x := -100 }).y = false
    rw [hqh { s.heart with x := -100 } rfl]
    exact hiddenX_no_hit 200 _ _ (by norm_num)

/-- Claim C1: for every pair of player and obstacle coordinates the
tolerance-box collision test used by the resolver returns true iff player.x
lies in the inclusive interval from obstacle.x - 60 to obstacle.x + 60 and
player.y lies in the inclusive interval from obstacle.y - 10 to
obstacle.y + 10; in particular the exact boundary values collide. -/
theorem tolerance_box_iff (px py ox oy : ℚ) :
    (toleranceHit px py ox oy = true ↔
      (ox - 60 ≤ px ∧ px ≤ ox + 60) ∧ (oy - 10 ≤ py ∧ py ≤ oy + 10)) ∧
    toleranceHit (ox + 60) (oy + 10) ox oy = true ∧
    toleranceHit (ox - 60) (oy - 10) ox oy = true := by
  refine ⟨toleranceHit_true_iff px py ox oy, ?_, ?_⟩ <;>
    · rw [toleranceHit_true_iff]
      refine ⟨⟨by linarith, by linarith⟩, by linarith, by linarith⟩

/-- Claim C8: each tick's deltaTime is (frameTimestamp - lastTimestamp)
divided by 1000, in seconds, with no clamping (mainDt is the delta main
computes at line 64 and feeds to update); for lastTimestamp = 1000 ms and
frameTimestamp = 1016 ms it equals 0.016 s. -/
theorem delta_time_seconds :
    (∀ now lastTime : ℚ, mainDt now lastTime = (now - lastTime) / 1000) ∧
    mainDt 1016 1000 = 0.016 := by
  constructor
  · intro now lastTime
    rfl
  · norm_num [mainDt]

/-- Claim C10: reset modifies only the player's position, the heart's x, the
enemies (each through newWave) and the pending-callback state; it leaves
player.life, player.score, heart.notVisible, heart.y, the gem, lastTime and
the stored handle unchanged, so it never undoes a life or score change. -/
theorem reset_frame_conditions (H : Hooks ε γ η) (s : EngineState ε γ η) :
    (reset H s).player.x = 200 ∧ (reset H s).player.y = 350 ∧
    (reset H s).heart.x = -100 ∧
    (reset H s).allEnemies = s.allEnemies.map H.newWave ∧
    (reset H s).browser = cancelAF s.browser s.rafId ∧
    (reset H s).player.life = s.player.life ∧
    (reset H s).player.score = s.player.score ∧
    (reset H s).heart.notVisible = s.heart.notVisible ∧
    (reset H s).heart.y = s.heart.y ∧
    (reset H s).heart.ext = s.heart.ext ∧
    (reset H s).gem = s.gem ∧
    (reset H s).lastTime = s.lastTime ∧
    (reset H s).clockIdx = s.clockIdx ∧
    (reset H s).rafId = s.rafId :=
  ⟨rfl, rfl, rfl, rfl, rfl, rfl, rfl, rfl, rfl, rfl, rfl, rfl, rfl, rfl⟩

/-- Claim C3 (amended): reset cancels the stored handle and schedules
nothing, so a second consecutive reset leaves the scheduler exactly as the
first did; callbacks never accumulate, and from a state whose only pending
callback is the stored handle, two resets leave zero pending, not one. -/
theorem reset_twice_no_accumulation (H : Hooks ε γ η) (s : EngineState ε γ η)
    (hnd : s.browser.pending.Nodup) :
    (reset H (reset H s)).browser = (reset H s).browser ∧
    (reset H s).browser.nextId = s.browser.nextId ∧
    (∀ i, s.rafId = some i →
      (reset H s).browser.pending = s.browser.pending.erase i) ∧
    (s.rafId = none → (reset H s).browser.pending = s.browser.pending) := by
  refine ⟨?_, cancelAF_nextId s.browser s.rafId, ?_, ?_⟩
  · show cancelAF (cancelAF s.browser s.rafId) s.rafId = cancelAF s.browser s.rafId
    cases hr : s.rafId with
    | none => rfl
    | some i =>
      have hni : i ∉ s.browser.pending.erase i := by
        intro hmem
        exact ((List.Nodup.mem_erase_iff hnd).mp hmem).1 rfl
      simp only [cancelAF, List.erase_of_not_mem hni]
  · intro i hi
    show (cancelAF s.browser s.rafId).pending = _
    rw [hi]
    rfl
  · intro hi
    show (cancelAF s.browser s.rafId).pending = _
    rw [hi]
    rfl

/-- The amended C3, instantiated at a running session whose single pending
callback is the stored handle 7. -/
theorem reset_twice_no_accumulation_witness :
    (reset benignHooks (reset benignHooks runningState)).browser
        = (reset benignHooks runningState).browser ∧
    (reset benignHooks runningState).browser.nextId
        = runningState.browser.nextId ∧
    (∀ i, runningState.rafId = some i →
      (reset benignHooks runningState).browser.pending
        = runningState.browser.pending.erase i) ∧
    (runningState.rafId = none →
      (reset benignHooks runningState).browser.pending
        = runningState.browser.pending) :=
  reset_twice_no_accumulation benignHooks runningState (by decide)

/-- Claim C3 as stated is false on the code: from a running session with one
pending callback (handle 7, which is the stored handle), two consecutive
resets leave zero pending frame callbacks, not exactly one, since reset
never schedules (engine.js line 229 is commented out). -/
theorem reset_twice_zero_pending_cex :
    (reset benignHooks (reset benignHooks runningState)).browser.pending = []
      ∧ (reset benignHooks
          (reset benignHooks runningState)).browser.pending.length ≠ 1 := by
  constructor
  · decide
  · decide

/-- Claim C6 (amended): in a resolver pass in which the heart's tolerance
box contains the player while no enemy's and not the gem's box does, the
pass adds exactly one life, sets the heart's notVisible flag, and performs
reset() only: player respawns at (200, 350), the heart is hidden at
x = -100, every enemy is re-waved exactly once, the stored frame handle is
cancelled, and no new frame callback is scheduled by this branch (the
scheduler's next handle, the stored handle, lastTime and the Date.now
counter are untouched). -/
theorem heart_collision_resolved (H : Hooks ε γ η) (c : Clock) (fuel : ℕ)
    (s : EngineState ε γ η)
    (hne : ∀ e ∈ s.allEnemies,
      toleranceHit s.player.x s.player.y e.x e.y = false)
    (hng : toleranceHit s.player.x s.player.y s.gem.x s.gem.y = false)
    (hh : toleranceHit s.player.x s.player.y s.heart.x s.heart.y = true) :
    ∃ s', checkCollisions H c fuel s = some s' ∧
      s'.player.life = s.player.life + 1 ∧
      s'.heart.notVisible = true ∧
      s'.player.x = 200 ∧ s'.player.y = 350 ∧ s'.heart.x = -100 ∧
      s'.player.score = s.player.score ∧
      s'.allEnemies = s.allEnemies.map H.newWave ∧
      s'.gem = s.gem ∧
      s'.rafId = s.rafId ∧
      s'.browser.pending = (cancelAF s.browser s.rafId).pending ∧
      s'.browser.nextId = s.browser.nextId ∧
      s'.lastTime = s.lastTime ∧ s'.clockIdx = s.clockIdx := by
  unfold checkCollisions checkCollisionsWith
  rw [checkEnemiesFrom_no_fire (init H c fuel) _ 0 s hne]
  rw [Option.some_bind]
  rw [if_neg (by simp [hng])]
  rw [Option.some_bind]
  rw [if_pos hh]
  exact ⟨_, rfl, rfl, rfl, rfl, rfl, rfl, rfl, rfl, rfl, rfl, rfl,
    cancelAF_nextId _ _, rfl, rfl⟩

/-- The amended C6, instantiated at a session in which only the heart's box
contains the player. -/
theorem heart_collision_resolved_witness :
    ∃ s', checkCollisions benignHooks clk 2 heartHitState = some s' ∧
      s'.player.life = heartHitState.player.life + 1 ∧
      s'.heart.notVisible = true ∧
      s'.player.x = 200 ∧ s'.player.y = 350 ∧ s'.heart.x = -100 ∧
      s'.player.score = heartHitState.player.score ∧
      s'.allEnemies = heartHitState.allEnemies.map benignHooks.newWave ∧
      s'.gem = heartHitState.gem ∧
      s'.rafId = heartHitState.rafId ∧
      s'.browser.pending
        = (cancelAF heartHitState.browser heartHitState.rafId).pending ∧
      s'.browser.nextId = heartHitState.browser.nextId ∧
      s'.lastTime = heartHitState.lastTime ∧
      s'.clockIdx = heartHitState.clockIdx :=
  heart_collision_resolved benignHooks clk 2 heartHitState
    (by decide) (by decide) (by decide)

/-- Claim C6 as stated is false on the code: in a session in which both the
first enemy's and the heart's tolerance boxes contain the player, the enemy
branch fires first and its re-entrant init() moves the player to spawn and
the heart to x = -100, so the heart branch never fires: the pass leaves
life 4 (one less than the initial 5, not one more) and notVisible false. -/
theorem heart_masked_by_enemy_cex :
    toleranceHit heartMaskState.player.x heartMaskState.player.y
      heartMaskState.heart.x heartMaskState.heart.y = true ∧
    (checkCollisions benignHooks clk 2 heartMaskState).map
      (fun s => (s.player.life, s.heart.notVisible)) = some (4, false) ∧
    (4 : ℤ) ≠ heartMaskState.player.life + 1 := by
  refine ⟨by decide, by decide, by decide⟩

/-- Claim C5 (amended): in a resolver pass in which the gem's tolerance box
contains the player while no enemy's box does, and neither the relocated gem
nor the re-waved-and-advanced enemies nor the updated hidden heart overlaps
the spawn point (200, 350), the pass adds exactly one score point, applies
gem.update exactly once, and performs a full re-init: player respawns at
(200, 350), the heart is hidden, every enemy is re-waved then advanced by
the inner tick, and the loop is cancelled and rescheduled. -/
theorem gem_collision_resolved (H : Hooks ε γ η) (c : Clock) (fuel : ℕ)
    (s : EngineState ε γ η)
    (hne : ∀ e ∈ s.allEnemies,
      toleranceHit s.player.x s.player.y e.x e.y = false)
    (hg : toleranceHit s.player.x s.player.y s.gem.x s.gem.y = true)
    (hqe : ∀ (dt : ℚ) (e : Enemy ε),
      toleranceHit 200 350 (H.enemyUpdate dt (H.newWave e)).x
        (H.enemyUpdate dt (H.newWave e)).y = false)
    (hqg : toleranceHit 200 350 (H.gemUpdate s.gem).x (H.gemUpdate s.gem).y
      = false)
    (hqh : ∀ h : Heart η, h.x = -100 → (H.heartUpdate h).x = -100) :
    ∃ s', checkCollisions H c (fuel + 1) s = some s' ∧
      s'.player.score = s.player.score + 1 ∧
      s'.player.life = s.player.life ∧
      s'.gem = H.gemUpdate s.gem ∧
      s'.player.x = 200 ∧ s'.player.y = 350 ∧ s'.heart.x = -100 ∧
      (∃ dt, s'.allEnemies
        = s.allEnemies.map (fun e => H.enemyUpdate dt (H.newWave e))) ∧
      s'.rafId = some s.browser.nextId ∧
      s'.browser.pending
        = (cancelAF s.browser s.rafId).pending ++ [s.browser.nextId] := by
  have hinit := init_quiet H c fuel
    { s with player := { s.player with score := s.player.score + 1 },
             gem := H.gemUpdate s.gem } hqe hqg hqh
  unfold checkCollisions checkCollisionsWith
  rw [checkEnemiesFrom_no_fire (init H c (fuel + 1)) _ 0 s hne]
  rw [Option.some_bind]
  rw [if_pos hg]
  rw [hinit]
  rw [Option.some_bind]
  rw [if_neg ?hno]
  · exact ⟨_, rfl, rfl, rfl, rfl, rfl, rfl, hqh { s.heart with x := -100 } rfl,
      ⟨mainDt (c (s.clockIdx + 1)) (c s.clockIdx), by rw [List.map_map]; rfl⟩,
      rfl, rfl⟩
  case hno =>
    show ¬ toleranceHit 200 350 (H.heartUpdate { s.heart with x := -100 }).x
        (H.heartUpdate { s.heart with x := -100 }).y = true
    rw [hqh { s.heart with x := -100 } rfl]
    have hfalse := hiddenX_no_hit 200 350
      (H.heartUpdate { s.heart with x := -100 }).y (by norm_num)
    simp [hfalse]

/-- The amended C5, instantiated at a session in which only the gem's box
contains the player. -/
theorem gem_collision_resolved_witness :
    ∃ s', checkCollisions benignHooks clk 2 gemHitState = some s' ∧
      s'.player.score = gemHitState.player.score + 1 ∧
      s'.player.life = gemHitState.player.life ∧
      s'.gem = benignHooks.gemUpdate gemHitState.gem ∧
      s'.player.x = 200 ∧ s'.player.y = 350 ∧ s'.heart.x = -100 ∧
      (∃ dt, s'.allEnemies = gemHitState.allEnemies.map
        (fun e => benignHooks.enemyUpdate dt (benignHooks.newWave e))) ∧
      s'.rafId = some gemHitState.browser.nextId ∧
      s'.browser.pending
        = (cancelAF gemHitState.browser gemHitState.rafId).pending
            ++ [gemHitState.browser.nextId] :=
  gem_collision_resolved benignHooks clk 1 gemHitState
    (by decide) (by decide) (fun dt e => by show toleranceHit 200 350 (-1000) 0 = false; rfl) (by decide)
    (fun h hx => hx)

/-- Claim C5 as stated is false on the code: in a session in which both the
first enemy's and the gem's tolerance boxes contain the player, the enemy
branch fires first and its re-entrant init() moves the player to spawn, so
the gem check (which reads the live player position) fails: the pass leaves
score 0 (not incremented) and never invokes gem.update. -/
theorem gem_masked_by_enemy_cex :
    toleranceHit gemMaskState.player.x gemMaskState.player.y
      gemMaskState.gem.x gemMaskState.gem.y = true ∧
    (checkCollisions benignHooks clk 2 gemMaskState).map
      (fun s => (s.player.score, s.player.life, s.gem.x))
      = some (0, 4, 100) ∧
    (0 : ℤ) ≠ gemMaskState.player.score + 1 :=
  ⟨by decide, by decide, by decide⟩

/-- Claim C2 (amended): in a resolver pass in which some enemy's tolerance
box contains the player, and neither the re-waved-and-advanced enemies nor
the gem nor the updated hidden heart overlaps the spawn point (200, 350),
the pass decreases player.life by exactly one and performs a full re-init:
player respawns at (200, 350), the heart is hidden at x = -100, every enemy
is re-waved then advanced by the inner tick, and the loop is cancelled and
rescheduled (the stored handle is cancelled from the queue and one fresh
callback is scheduled). -/
theorem enemy_collision_resolved (H : Hooks ε γ η) (c : Clock) (fuel : ℕ)
    (s : EngineState ε γ η)
    (hcol : ∃ e ∈ s.allEnemies,
      toleranceHit s.player.x s.player.y e.x e.y = true)
    (hqe : ∀ (dt : ℚ) (e : Enemy ε),
      toleranceHit 200 350 (H.enemyUpdate dt (H.newWave e)).x
        (H.enemyUpdate dt (H.newWave e)).y = false)
    (hqg : toleranceHit 200 350 s.gem.x s.gem.y = false)
    (hqh : ∀ h : Heart η, h.x = -100 → (H.heartUpdate h).x = -100) :
    ∃ s', checkCollisions H c (fuel + 1) s = some s' ∧
      s'.player.life = s.player.life - 1 ∧
      s'.player.score = s.player.score ∧
      s'.player.x = 200 ∧ s'.player.y = 350 ∧ s'.heart.x = -100 ∧
      (∃ dt, s'.allEnemies
        = s.allEnemies.map (fun e => H.enemyUpdate dt (H.newWave e))) ∧
      s'.rafId = some s.browser.nextId ∧
      s'.browser.pending
        = (cancelAF s.browser s.rafId).pending ++ [s.browser.nextId] := by
  have hinit := init_quiet H c fuel
    { s with player := { s.player with life := s.player.life - 1 } }
    hqe hqg hqh
  obtain ⟨e, he, hhit⟩ := hcol
  obtain ⟨k, hk⟩ := List.mem_iff_get?.mp he
  have hklen : k < s.allEnemies.length := by
    rcases List.get?_eq_some.mp hk with ⟨hlt, -⟩
    exact hlt
  have hloop := checkEnemiesFrom_fire (init H c (fuel + 1)) s _ hinit ?hq
    s.allEnemies.length 0 ⟨k, Nat.zero_le k, by omega, e, hk, hhit⟩
  case hq =>
    intro e' he'
    obtain ⟨e1, he1, rfl⟩ := List.mem_map.mp he'
    obtain ⟨e0, he0, rfl⟩ := List.mem_map.mp he1
    exact hqe _ e0
  unfold checkCollisions checkCollisionsWith
  rw [hloop]
  rw [Option.some_bind]
  rw [if_neg (show ¬ toleranceHit 200 350 s.gem.x s.gem.y = true by simp [hqg])]
  rw [Option.some_bind]
  rw [if_neg ?hno]
  · exact ⟨_, rfl, rfl, rfl, rfl, rfl, hqh { s.heart with x := -100 } rfl,
      ⟨mainDt (c (s.clockIdx + 1)) (c s.clockIdx), by rw [List.map_map]; rfl⟩,
      rfl, rfl⟩
  case hno =>
    show ¬ toleranceHit 200 350 (H.heartUpdate { s.heart with x := -100 }).x
        (H.heartUpdate { s.heart with x := -100 }).y = true
    rw [hqh { s.heart with x := -100 } rfl]
    have hfalse := hiddenX_no_hit 200 350
      (H.heartUpdate { s.heart with x := -100 }).y (by norm_num)
    simp [hfalse]

/-- The amended C2, instantiated at a session in which the first enemy's box
contains the player. -/
theorem enemy_collision_resolved_witness :
    ∃ s', checkCollisions benignHooks clk 2 enemyHitState = some s' ∧
      s'.player.life = enemyHitState.player.life - 1 ∧
      s'.player.score = enemyHitState.player.score ∧
      s'.player.x = 200 ∧ s'.player.y = 350 ∧ s'.heart.x = -100 ∧
      (∃ dt, s'.allEnemies = enemyHitState.allEnemies.map
        (fun e => benignHooks.enemyUpdate dt (benignHooks.newWave e))) ∧
      s'.rafId = some enemyHitState.browser.nextId ∧
      s'.browser.pending
        = (cancelAF enemyHitState.browser enemyHitState.rafId).pending
            ++ [enemyHitState.browser.nextId] :=
  enemy_collision_resolved benignHooks clk 1 enemyHitState
    (by decide) (fun dt e => by show toleranceHit 200 350 (-1000) 0 = false; rfl) (by decide) (fun h hx => hx)

/-- Claim C2 as stated is false on the code once the spec's randomized
re-wave is resolved adversarially: if a freshly waved enemy respawns on the
spawn tolerance box, the re-entrant pass fires again and one resolver pass
decreases player.life by two, not exactly one (the run is complete: the same
result holds with any larger budget). -/
theorem enemy_double_decrement_cex :
    (∃ e ∈ doubleHitState.allEnemies,
      toleranceHit doubleHitState.player.x doubleHitState.player.y
        e.x e.y = true) ∧
    (checkCollisions advHooks clk 2 doubleHitState).map
      (fun s => s.player.life) = some 3 ∧
    (checkCollisions advHooks clk 9 doubleHitState).map
      (fun s => s.player.life) = some 3 ∧
    (3 : ℤ) ≠ doubleHitState.player.life - 1 :=
  ⟨by decide, by decide, by decide, by decide⟩

/-- Claim C4 fails on the code: starting from the load-time session, one
init() whose first tick has an enemy collision ends with two pending frame
callbacks: the re-entrant init() inside checkCollisions schedules one, and
the outer main, resuming after update(), schedules another without anything
cancelling the first (reset() only cancels the stored stale handle).  The
result is stable in the recursion budget. -/
theorem reentrant_init_two_pending :
    (init loadHooks clk 3 loadState).map
      (fun s => s.browser.pending.length) = some 2 ∧
    (init loadHooks clk 7 loadState).map
      (fun s => s.browser.pending.length) = some 2 ∧
    ¬ (2 : ℕ) ≤ 1 :=
  ⟨by decide, by decide, by decide⟩

/-- Claim C7: a heart at its hidden position x = -100 never satisfies the
tolerance-box test against any player position with x ≥ 0 on the 505-wide
canvas, regardless of player.y and of the heart's y; and the hidden heart's
draw, issued by renderEntities at its position, lands outside the canvas's
x-range. -/
theorem hidden_heart_unreachable (px py hy : ℚ) (s : EngineState ε γ η)
    (hpx : 0 ≤ px) (hs : s.heart.x = -100) :
    toleranceHit px py (-100) hy = false ∧
    (renderEntities s).get? 1 = some (s.heart.x, s.heart.y) ∧
    ¬ onCanvasX s.heart.x := by
  refine ⟨hiddenX_no_hit px py hy hpx, rfl, ?_⟩
  rw [hs]
  rintro ⟨h0, -⟩
  norm_num at h0

/-- Claim C7 at a concrete on-canvas player and hidden heart. -/
theorem hidden_heart_unreachable_witness :
    toleranceHit 200 350 (-100) 70 = false ∧
    (renderEntities hiddenHeartState).get? 1
      = some (hiddenHeartState.heart.x, hiddenHeartState.heart.y) ∧
    ¬ onCanvasX hiddenHeartState.heart.x :=
  hidden_heart_unreachable 200 350 70 hiddenHeartState (by norm_num) rfl

/-- Claim C9 (amended): update(dt) first advances the entities -- each
enemy's update receives dt, the heart's update is invoked without a time
argument -- while the player and the gem are not advanced by the engine at
all; only then is the resolver invoked, exactly once, on the advanced state,
so a collision-free tick returns exactly the advanced state. -/
theorem update_order_resolved (H : Hooks ε γ η) (c : Clock) (fuel : ℕ)
    (dt : ℚ) (s : EngineState ε γ η) :
    update H c fuel dt s = checkCollisions H c fuel (updateEntities H dt s) ∧
    (updateEntities H dt s).allEnemies = s.allEnemies.map (H.enemyUpdate dt) ∧
    (updateEntities H dt s).heart = H.heartUpdate s.heart ∧
    (updateEntities H dt s).player = s.player ∧
    (updateEntities H dt s).gem = s.gem ∧
    ((∀ e ∈ (updateEntities H dt s).allEnemies,
        toleranceHit s.player.x s.player.y e.x e.y = false) →
      toleranceHit s.player.x s.player.y s.gem.x s.gem.y = false →
      toleranceHit s.player.x s.player.y (H.heartUpdate s.heart).x
        (H.heartUpdate s.heart).y = false →
      update H c fuel dt s = some (updateEntities H dt s)) := by
  refine ⟨rfl, rfl, rfl, rfl, rfl, ?_⟩
  intro h1 h2 h3
  exact checkCollisionsWith_no_fire H (init H c fuel) (updateEntities H dt s)
    h1 h2 h3

/-- The amended C9 at a concrete quiet tick. -/
theorem update_order_resolved_witness :
    update bumpHooks clk 1 1 tickState
      = some (updateEntities bumpHooks 1 tickState) :=
  (update_order_resolved bumpHooks clk 1 1 tickState).2.2.2.2.2
    (by decide) (by decide) (by decide)

/-- Claim C9 as stated is false on the code: the entity-advancement phase of
update never invokes the gem's or the player's own advance -- here a
gem.update that visibly moves the gem is not applied, and the player is
untouched, although the claim says every actor's per-tick advance is
invoked with deltaTime. -/
theorem update_skips_player_gem_cex :
    (updateEntities bumpHooks 1 tickState).gem = tickState.gem ∧
    bumpHooks.gemUpdate tickState.gem ≠ tickState.gem ∧
    (updateEntities bumpHooks 1 tickState).player = tickState.player := by
  refine ⟨rfl, ?_, rfl⟩
  intro hcontra
  have hx := congrArg Gem.x hcontra
  norm_num [bumpHooks, tickState] at hx

end Arcade

